import Mathlib

/-!
Verification of the AI-Resume-Analyzer core: the API-client transport and
error-classification layer (`src/services/apiClient.ts`), the analysis
orchestrator hook (`useAnalysis` in `src/hooks`), and the PDF viewer's
zoom/navigation handlers (`PDFPreview`).  Each TypeScript function is
shallowly embedded as an executable Lean definition; machine numbers are
modelled as `Nat`/`Int`/`ℚ`, fallible operations as `Except`, and the
transport boundary (the browser `fetch`) as an explicit outcome parameter
so that "number of network calls issued" is observable.
-/

namespace ResumeAnalyzer

/-! ## Data model (`src/types`) -/

/-- `keywordAnalysis` sub-object of `AnalysisResult`. -/
structure KeywordAnalysis where
  score : Int
  missingKeywords : List String
  presentKeywords : List String
deriving Repr, DecidableEq

/-- `AnalysisResult` as declared in `src/types/index.ts` (required fields). -/
structure AnalysisResult where
  isPerfect : Bool
  overallScore : Int
  summary : String
  suggestions : List String
  unnecessaryItems : List String
  strengths : List String
  formattingFeedback : List String
  keywordAnalysis : KeywordAnalysis
deriving Repr, DecidableEq

/-- Category of an interview question. -/
inductive QuestionCategory where
  | technical
  | behavioral
  | experience
deriving Repr, DecidableEq

/-- Difficulty of an interview question. -/
inductive QuestionDifficulty where
  | easy
  | medium
  | hard
deriving Repr, DecidableEq

/-- `InterviewQuestion` as declared in the API client. -/
structure InterviewQuestion where
  question : String
  category : QuestionCategory
  difficulty : QuestionDifficulty
deriving Repr, DecidableEq

/-- `QuestionsResult`: payload of the generate-questions endpoint. -/
structure QuestionsResult where
  questions : List InterviewQuestion
deriving Repr, DecidableEq

/-! ## API client error taxonomy (`apiClient.ts`)

The four error classes are modelled as one closed inductive.  The class
fields carried by `ApiError` are `message`, `code`, `statusCode` and
`isRetryable` (defaulting to `false` in the constructor); the other three
classes carry a message and have `isRetryable = true` unconditionally. -/

inductive ApiClientError where
  | apiError (message : String) (code : String) (statusCode : Option Nat) (retryable : Bool)
  | networkError (message : String)
  | timeoutError (message : String)
  | rateLimitError (message : String)
deriving Repr, DecidableEq

/-- The `message` property of each error class. -/
def ApiClientError.message : ApiClientError → String
  | .apiError m _ _ _ => m
  | .networkError m => m
  | .timeoutError m => m
  | .rateLimitError m => m

/-- The `isRetryable` property: `ApiError` stores a flag, the other three
classes declare `public isRetryable = true`. -/
def ApiClientError.isRetryable : ApiClientError → Bool
  | .apiError _ _ _ r => r
  | .networkError _ => true
  | .timeoutError _ => true
  | .rateLimitError _ => true

/-- Default message of `NetworkError`. -/
def networkErrorMessage : String := "Network error. Please check your internet connection."

/-- Default message of `TimeoutError`. -/
def timeoutErrorMessage : String := "Request timed out. Please try again."

/-! ## Response envelope and transport outcomes -/

/-- The JSON envelope `ApiResponse<T>` of `apiClient.ts`. -/
structure ApiResponse (α : Type) where
  success : Bool
  data : Option α
  error : Option String
  code : Option String
deriving Repr, DecidableEq

/-- An HTTP response as seen by `handleResponse`: its status code and the
parsed JSON body (`none` when `response.json()` throws). -/
structure Response (α : Type) where
  status : Nat
  json : Option (ApiResponse α)
deriving Repr, DecidableEq

/-- The `ok` property of a fetch `Response`: status in the range 200-299. -/
def Response.isOk {α : Type} (r : Response α) : Bool :=
  200 ≤ r.status && r.status < 300

/-- Outcome of one `fetchWithTimeout` call: a response arrived, the fetch
rejected with a connection-level error, or the abort controller fired. -/
inductive FetchOutcome (α : Type) where
  | response (r : Response α)
  | networkFailure
  | aborted
deriving Repr, DecidableEq

/-! ## Error classification (`apiClient.ts`) -/

/-- The length of a JavaScript string after `.trim()`: whitespace is
stripped from both ends.  (Embedded over the character list so that it is
kernel-evaluable.) -/
def trimmedLength (s : String) : Nat :=
  ((s.data.dropWhile Char.isWhitespace).reverse.dropWhile Char.isWhitespace).length

/-- JavaScript `toLowerCase` on an ASCII string, used only to compare a
produced message against the spec's lowercase quotation of it. -/
def jsToLower (s : String) : String := ⟨s.data.map Char.toLower⟩

/-- `getUserFriendlyMessage(code, defaultMessage)`: curated message table. -/
def getUserFriendlyMessage (code : String) (defaultMessage : String) : String :=
  match code with
  | "AI_SERVICE_UNAVAILABLE" => "AI service is currently unavailable. Please try again later."
  | "MISSING_RESUME_TEXT" => "Resume text is missing. Please upload a valid resume."
  | "EMPTY_RESUME_TEXT" => "Resume text is empty. Please upload a resume with content."
  | "RESUME_TOO_SHORT" => "Resume is too short. Please upload a complete resume."
  | "INVALID_CONTENT_TYPE" => "Invalid request format. Please try again."
  | "API_KEY_ERROR" => "Service configuration error. Please contact support."
  | "RATE_LIMIT_EXCEEDED" => "Too many requests. Please wait a moment and try again."
  | "REQUEST_TIMEOUT" => "Request timed out. Please check your connection and try again."
  | "CONNECTION_FAILED" => "Connection failed. Please check your internet connection."
  | "ANALYSIS_FAILED" => "Analysis failed. Please try again."
  | "QUESTION_GENERATION_FAILED" => "Failed to generate questions. Please try again."
  | "INTERNAL_ERROR" => "An unexpected error occurred. Please try again."
  | "FILE_TOO_LARGE" => "File is too large. Maximum size is 10MB."
  | "BAD_REQUEST" => "Invalid request. Please check your input."
  | "NOT_FOUND" => "Requested resource not found."
  | "METHOD_NOT_ALLOWED" => "Invalid request method."
  | "INTERNAL_SERVER_ERROR" => "Server error. Please try again later."
  | _ => defaultMessage

/-- `isRetryableError(statusCode, errorCode?)`: the fixed retryability table. -/
def isRetryableError (statusCode : Nat) (errorCode : Option String) : Bool :=
  let retryableStatusCodes : List Nat := [408, 429, 500, 502, 503, 504]
  let retryableErrorCodes : List String :=
    ["RATE_LIMIT_EXCEEDED", "REQUEST_TIMEOUT", "CONNECTION_FAILED",
     "INTERNAL_ERROR", "INTERNAL_SERVER_ERROR"]
  retryableStatusCodes.contains statusCode ||
    (match errorCode with
     | some c => retryableErrorCodes.contains c
     | none => false)

/-- `handleResponse<T>(response)`: extract the payload or throw the
classified error, following the source line by line. -/
def handleResponse {α : Type} (r : Response α) : Except ApiClientError α :=
  match r.json with
  | none =>
      .error (.apiError "Invalid response from server" "INVALID_RESPONSE" (some r.status) false)
  | some d =>
      if !r.isOk || !d.success then
        let errorCode := d.code.getD "UNKNOWN_ERROR"
        let defaultMessage := "Request failed with status " ++ toString r.status
        let errorMessage := d.error.getD defaultMessage
        let userFriendlyMessage := getUserFriendlyMessage errorCode errorMessage
        let retryable := isRetryableError r.status (some errorCode)
        if r.status == 429 || errorCode == "RATE_LIMIT_EXCEEDED" then
          .error (.rateLimitError userFriendlyMessage)
        else
          .error (.apiError userFriendlyMessage errorCode (some r.status) retryable)
      else
        match d.data with
        | none => .error (.apiError "No data in response" "NO_DATA" (some r.status) false)
        | some v => .ok v

/-- Classify a raw fetch outcome the way `fetchWithTimeout` plus
`handleResponse` do: an abort becomes `TimeoutError`, a connection-level
rejection becomes `NetworkError`, a response goes through `handleResponse`. -/
def fetchResult {α : Type} (f : FetchOutcome α) : Except ApiClientError α :=
  match f with
  | .response r => handleResponse r
  | .networkFailure => .error (.networkError networkErrorMessage)
  | .aborted => .error (.timeoutError timeoutErrorMessage)

/-! ## API client operations

Each operation returns its result together with the number of fetch calls
it issued, so that "no network call" is a provable statement. -/

/-- `analyzeResume(resumeText)` of `apiClient.ts`: empty-after-trim input
throws `ApiError('Resume text cannot be empty', 'EMPTY_RESUME_TEXT', 400)`
before any fetch; otherwise one fetch is issued and handled. -/
def apiAnalyzeResume (resumeText : String) (f : FetchOutcome AnalysisResult) :
    Except ApiClientError AnalysisResult × Nat :=
  if trimmedLength resumeText = 0 then
    (.error (.apiError "Resume text cannot be empty" "EMPTY_RESUME_TEXT" (some 400) false), 0)
  else
    (fetchResult f, 1)

/-- `generateQuestions(resumeText, analysisResult?)` of `apiClient.ts`:
same empty-input guard, then one fetch whose payload's `questions` field is
returned. -/
def apiGenerateQuestions (resumeText : String) (f : FetchOutcome QuestionsResult) :
    Except ApiClientError (List InterviewQuestion) × Nat :=
  if trimmedLength resumeText = 0 then
    (.error (.apiError "Resume text cannot be empty" "EMPTY_RESUME_TEXT" (some 400) false), 0)
  else
    (match fetchResult f with
     | .ok qr => .ok qr.questions
     | .error e => .error e, 1)

/-- The health payload `{ status, timestamp }`. -/
structure HealthStatus where
  status : String
  timestamp : String
deriving Repr, DecidableEq

/-- Outcome of the health-check fetch: status code plus parsed body
(`none` when `response.json()` throws), or a transport-level failure. -/
inductive HealthFetchOutcome where
  | response (status : Nat) (body : Option HealthStatus)
  | networkFailure
  | aborted
deriving Repr, DecidableEq

/-- `checkHealth()` of `apiClient.ts`.  Note that it does not go through
`handleResponse`: a non-ok status throws
`ApiError('Health check failed', 'HEALTH_CHECK_FAILED', status)` whose
`isRetryable` is the constructor default `false`; an ok response returns
the raw JSON body (a body-parse failure is wrapped as an unknown
`ApiError`). -/
def checkHealth (f : HealthFetchOutcome) : Except ApiClientError HealthStatus :=
  match f with
  | .response status body =>
      if !(200 ≤ status && status < 300) then
        .error (.apiError "Health check failed" "HEALTH_CHECK_FAILED" (some status) false)
      else
        match body with
        | some h => .ok h
        | none => .error (.apiError "Invalid JSON" "UNKNOWN_ERROR" none false)
  | .networkFailure => .error (.networkError networkErrorMessage)
  | .aborted => .error (.timeoutError timeoutErrorMessage)

/-! ## The analysis orchestrator (`useAnalysis` hook)

The hook's `useState` cells form one record; each operation is a function
from the current record (plus the outcome the transport would produce) to
the new record together with the number of fetch calls issued. -/

/-- The tagged `lastOperation` variant of `useAnalysis`. -/
inductive LastOperation where
  | analyze (resumeText : String)
  | questions (resumeText : String) (analysisResult : AnalysisResult)
deriving Repr, DecidableEq

/-- The state cells of `useAnalysis`. -/
structure AnalysisState where
  analysisResult : Option AnalysisResult
  interviewQuestions : Option (List InterviewQuestion)
  isAnalyzing : Bool
  isGeneratingQuestions : Bool
  error : Option String
  isRetryable : Bool
  lastOperation : Option LastOperation
deriving Repr, DecidableEq

/-- The initial state of the hook (all `useState` initializers). -/
def initialAnalysisState : AnalysisState :=
  { analysisResult := none
    interviewQuestions := none
    isAnalyzing := false
    isGeneratingQuestions := false
    error := none
    isRetryable := false
    lastOperation := none }

/-- Validation message stored when the resume text trims to empty. -/
def emptyResumeMessage : String := "Resume text is empty. Please upload a valid resume."

/-- Validation message stored when the trimmed text is shorter than 50. -/
def tooShortMessage : String :=
  "Resume is too short. Please upload a complete resume with sufficient content."

/-- `analyzeResume(resumeText)` of the `useAnalysis` hook.  Returns the
state after the call settles and the number of fetch calls issued.  The
two local guards return before touching the transport; otherwise the state
passes through `isAnalyzing := true` with `lastOperation` recorded, the
API client is invoked, and the success/failure branch of the
`try`/`catch`/`finally` updates the state. -/
def hookAnalyzeResume (s : AnalysisState) (resumeText : String)
    (f : FetchOutcome AnalysisResult) : AnalysisState × Nat :=
  if trimmedLength resumeText = 0 then
    ({ s with error := some emptyResumeMessage, isRetryable := false }, 0)
  else if trimmedLength resumeText < 50 then
    ({ s with error := some tooShortMessage, isRetryable := false }, 0)
  else
    let s1 := { s with isAnalyzing := true, error := none, isRetryable := false,
                       lastOperation := some (.analyze resumeText) }
    let out := apiAnalyzeResume resumeText f
    match out.1 with
    | .ok result =>
        ({ s1 with analysisResult := some result, lastOperation := none,
                   isAnalyzing := false }, out.2)
    | .error e =>
        ({ s1 with error := some e.message, isRetryable := e.isRetryable,
                   analysisResult := none, isAnalyzing := false }, out.2)

/-- `generateQuestions(resumeText, analysisResult)` of the hook.  The
`!analysisResult` runtime guard can only fire on a null argument, which
the TypeScript signature excludes, so the model takes the argument as a
value.  The hook forwards `{summary, suggestions}` of the analysis result
in the request body, which does not affect the state. -/
def hookGenerateQuestions (s : AnalysisState) (resumeText : String)
    (analysisResult : AnalysisResult) (f : FetchOutcome QuestionsResult) :
    AnalysisState × Nat :=
  if trimmedLength resumeText = 0 then
    ({ s with error := some "Resume text is required to generate questions.",
              isRetryable := false }, 0)
  else
    let s1 := { s with isGeneratingQuestions := true, error := none, isRetryable := false,
                       lastOperation := some (.questions resumeText analysisResult) }
    let out := apiGenerateQuestions resumeText f
    match out.1 with
    | .ok qs =>
        ({ s1 with interviewQuestions := some qs, lastOperation := none,
                   isGeneratingQuestions := false }, out.2)
    | .error e =>
        ({ s1 with error := some e.message, isRetryable := e.isRetryable,
                   interviewQuestions := none, isGeneratingQuestions := false }, out.2)

/-- `retryLastOperation()` of the hook: dispatch on the stored variant,
no-op when none is stored.  `fa`/`fq` are the transport outcomes the
replayed operation would observe. -/
def hookRetryLastOperation (s : AnalysisState) (fa : FetchOutcome AnalysisResult)
    (fq : FetchOutcome QuestionsResult) : AnalysisState × Nat :=
  match s.lastOperation with
  | none => (s, 0)
  | some (.analyze txt) => hookAnalyzeResume s txt fa
  | some (.questions txt ar) => hookGenerateQuestions s txt ar fq

/-- `clearError()` of the hook. -/
def hookClearError (s : AnalysisState) : AnalysisState :=
  { s with error := none, isRetryable := false }

/-- `reset()` of the hook. -/
def hookReset (_ : AnalysisState) : AnalysisState := initialAnalysisState

/-! ## PDF viewer handlers (`PDFPreview`)

Scale arithmetic is modelled over `ℚ`; the inter-finger distance computed
by `Math.hypot` is abstracted as a positive rational input. -/

/-- The clamp pattern used at every scale-setting call site of the viewer. -/
def clampScale (x : ℚ) : ℚ := min 3 (max (1/2) x)

/-- `handleZoomIn`: step up by 0.25, capped at 3.0. -/
def handleZoomIn (scale : ℚ) : ℚ := min 3 (scale + 1/4)

/-- `handleZoomOut`: step down by 0.25, floored at 0.5. -/
def handleZoomOut (scale : ℚ) : ℚ := max (1/2) (scale - 1/4)

/-- `handleResetZoom`: scale back to 1.0. -/
def handleResetZoom : ℚ := 1

/-- `handleFitToWidth`: container width (client width minus padding 32)
over the page's natural width (canvas pixel width divided by the current
scale), clamped. -/
def handleFitToWidth (scale clientWidth canvasPixelWidth : ℚ) : ℚ :=
  let containerWidth := clientWidth - 32
  let canvasWidth := canvasPixelWidth / scale
  min 3 (max (1/2) (containerWidth / canvasWidth))

/-- The `touchStartRef` record: gesture midpoint and reference distance. -/
structure TouchRef where
  x : ℚ
  y : ℚ
  distance : ℚ
deriving Repr, DecidableEq

/-- `handleTouchStart` on a two-finger touch: record the midpoint of the
two touches and the initial inter-finger distance `dist` (computed by
`Math.hypot` in the source). -/
def handleTouchStart (x1 y1 x2 y2 dist : ℚ) : TouchRef :=
  { x := (x1 + x2) / 2, y := (y1 + y2) / 2, distance := dist }

/-- `handleTouchMove` on a two-finger move: scale delta is the current
distance over the reference distance, applied multiplicatively with
clamping, and the reference distance is rebased to the current distance. -/
def handleTouchMove (scale : ℚ) (ts : TouchRef) (currentDistance : ℚ) : ℚ × TouchRef :=
  let scaleDelta := currentDistance / ts.distance
  let newScale := min 3 (max (1/2) (scale * scaleDelta))
  (newScale, { ts with distance := currentDistance })

/-- `handlePreviousPage`: step back, silently clamped at 1. -/
def handlePreviousPage (currentPage : Int) : Int := max 1 (currentPage - 1)

/-- `handleNextPage`: step forward, silently clamped at `numPages`. -/
def handleNextPage (currentPage numPages : Int) : Int := min numPages (currentPage + 1)

/-- `handlePageInputSubmit` after `parseInt` of the input field (`none`
models `NaN`): a value in `[1, numPages]` becomes the current page,
anything else leaves the page unchanged and surfaces the validation toast
(the source also resets the input field to the current page then). -/
def handlePageInputSubmit (parsed : Option Int) (currentPage numPages : Int) :
    Int × Option String :=
  match parsed with
  | some pageNum =>
      if 1 ≤ pageNum ∧ pageNum ≤ numPages then
        (pageNum, none)
      else
        (currentPage, some ("Invalid page number. Must be between 1 and " ++ toString numPages))
  | none =>
      (currentPage, some ("Invalid page number. Must be between 1 and " ++ toString numPages))

/-! ## Concrete fixtures for witnesses and counterexamples -/

/-- A resume text whose trimmed length is at least 50 characters. -/
def longResumeText : String :=
  "Experienced software engineer with ten years of work in distributed systems."

/-- A sample analysis payload. -/
def sampleAnalysis : AnalysisResult :=
  { isPerfect := false
    overallScore := 85
    summary := "Good resume with room for improvement"
    suggestions := ["Add more quantifiable achievements"]
    unnecessaryItems := []
    strengths := ["Clear structure"]
    formattingFeedback := []
    keywordAnalysis := { score := 70, missingKeywords := [], presentKeywords := ["react"] } }

/-- A 200 response whose envelope carries `sampleAnalysis`. -/
def okAnalysisResponse : Response AnalysisResult :=
  { status := 200
    json := some { success := true, data := some sampleAnalysis, error := none, code := none } }

/-- A hook state with an analysis already in flight. -/
def busyState : AnalysisState := { initialAnalysisState with isAnalyzing := true }

/-- A hook state holding previously stored results. -/
def stateWithResults : AnalysisState :=
  { initialAnalysisState with
      analysisResult := some sampleAnalysis
      interviewQuestions := some [] }

/-- A failing 500 envelope with a known error code. -/
def failedAnalysisEnvelope : ApiResponse AnalysisResult :=
  { success := false, data := none, error := some "Analysis failed", code := some "ANALYSIS_FAILED" }

/-- A 500 response carrying `failedAnalysisEnvelope`. -/
def failedAnalysisResponse : Response AnalysisResult :=
  { status := 500, json := some failedAnalysisEnvelope }

/-- A 429 envelope as the backend emits it when throttling. -/
def rateLimitEnvelope : ApiResponse AnalysisResult :=
  { success := false, data := none, error := some "Too many requests",
    code := some "RATE_LIMIT_EXCEEDED" }

/-- A 429 response carrying `rateLimitEnvelope`. -/
def rateLimitedResponse : Response AnalysisResult :=
  { status := 429, json := some rateLimitEnvelope }

/-- A 200 envelope that reports success but omits `data`. -/
def noDataEnvelope : ApiResponse AnalysisResult :=
  { success := true, data := none, error := none, code := none }

/-- A 200 response carrying `noDataEnvelope`. -/
def noDataResponse : Response AnalysisResult :=
  { status := 200, json := some noDataEnvelope }

/-- A concrete pinch reference record. -/
def sampleTouchRef : TouchRef := { x := 0, y := 0, distance := 4 }

/-! ## Claim C1 -/

/-- Claim C1, corrected.  For every input whose trimmed length is below 50,
`analyzeResume` of the hook returns without touching the transport (zero
fetch calls), stores `isRetryable = false`, and stores one of the two
fixed validation messages (the empty-input one or the too-short one). -/
theorem analyzeResume_short_input_rejected_locally (s : AnalysisState) (txt : String)
    (f : FetchOutcome AnalysisResult) (h : trimmedLength txt < 50) :
    (hookAnalyzeResume s txt f).2 = 0 ∧
    (hookAnalyzeResume s txt f).1.isRetryable = false ∧
    ((hookAnalyzeResume s txt f).1.error = some emptyResumeMessage ∨
     (hookAnalyzeResume s txt f).1.error = some tooShortMessage) := by
  unfold hookAnalyzeResume
  by_cases h0 : trimmedLength txt = 0
  · rw [if_pos h0]
    exact ⟨rfl, rfl, Or.inl rfl⟩
  · rw [if_neg h0, if_pos h]
    exact ⟨rfl, rfl, Or.inr rfl⟩

/-- Witness for `analyzeResume_short_input_rejected_locally` at the
concrete 8-character input. -/
theorem analyzeResume_short_input_rejected_locally_witness :
    trimmedLength "Jane Doe" < 50 ∧
    ((hookAnalyzeResume initialAnalysisState "Jane Doe" FetchOutcome.networkFailure).2 = 0 ∧
     (hookAnalyzeResume initialAnalysisState "Jane Doe" FetchOutcome.networkFailure).1.isRetryable
       = false ∧
     ((hookAnalyzeResume initialAnalysisState "Jane Doe" FetchOutcome.networkFailure).1.error
        = some emptyResumeMessage ∨
      (hookAnalyzeResume initialAnalysisState "Jane Doe" FetchOutcome.networkFailure).1.error
        = some tooShortMessage)) :=
  ⟨by decide,
   analyzeResume_short_input_rejected_locally initialAnalysisState "Jane Doe"
     FetchOutcome.networkFailure (by decide)⟩

/-- Claim C1 counterexample.  On the concrete 12-character input the call
is rejected locally with zero fetch calls and `isRetryable = false`, but
the stored message is the fixed too-short string, which contains no digit
at all — in particular it does not name the minimum of 50 characters
(neither does the empty-input message). -/
theorem analyzeResume_validation_message_names_no_minimum :
    (hookAnalyzeResume initialAnalysisState "Short resume" FetchOutcome.networkFailure).2 = 0 ∧
    (hookAnalyzeResume initialAnalysisState "Short resume" FetchOutcome.networkFailure).1.error
      = some tooShortMessage ∧
    (hookAnalyzeResume initialAnalysisState "Short resume"
        FetchOutcome.networkFailure).1.isRetryable = false ∧
    tooShortMessage.data.any Char.isDigit = false ∧
    emptyResumeMessage.data.any Char.isDigit = false := by
  refine ⟨?_, ?_, ?_, ?_, ?_⟩ <;> decide

/-! ## Claim C2 -/

/-- Claim C2, corrected.  The hook's `analyzeResume` has no reentrancy
guard: its only guards inspect the text, so a call made while
`isAnalyzing` is already `true` still issues a (second) transport call
whenever the text passes the local validation. -/
theorem analyzeResume_not_guarded_by_isAnalyzing (s : AnalysisState) (txt : String)
    (f : FetchOutcome AnalysisResult) (hbusy : s.isAnalyzing = true)
    (hlen : 50 ≤ trimmedLength txt) :
    (hookAnalyzeResume s txt f).2 = 1 := by
  unfold hookAnalyzeResume apiAnalyzeResume
  have h0 : ¬ trimmedLength txt = 0 := by omega
  have h1 : ¬ trimmedLength txt < 50 := by omega
  rw [if_neg h0, if_neg h1, if_neg h0]
  cases h : fetchResult f <;> simp

/-- Witness for `analyzeResume_not_guarded_by_isAnalyzing` at a state with
an analysis in flight and a concrete long input. -/
theorem analyzeResume_not_guarded_by_isAnalyzing_witness :
    busyState.isAnalyzing = true ∧ 50 ≤ trimmedLength longResumeText ∧
    (hookAnalyzeResume busyState longResumeText FetchOutcome.networkFailure).2 = 1 :=
  ⟨rfl, by decide,
   analyzeResume_not_guarded_by_isAnalyzing busyState longResumeText
     FetchOutcome.networkFailure rfl (by decide)⟩

/-- Claim C2 counterexample.  From a state whose `isAnalyzing` is `true`,
invoking `analyzeResume` with a valid text issues one more transport call
(count 1, not 0), so a second concurrent request on the same session state
does start. -/
theorem analyzeResume_reentrant_call_issues_transport :
    busyState.isAnalyzing = true ∧
    (hookAnalyzeResume busyState longResumeText
        (FetchOutcome.response okAnalysisResponse)).2 = 1 :=
  ⟨rfl, by decide⟩

/-! ## Shared lemmas about the hook's success and failure branches -/

/-- When the guards pass and the API client succeeds, the hook stores the
result, clears `lastOperation` and drops the loading flag. -/
theorem hookAnalyzeResume_of_ok (s : AnalysisState) (txt : String)
    (f : FetchOutcome AnalysisResult) (result : AnalysisResult)
    (h0 : ¬ trimmedLength txt = 0) (h1 : ¬ trimmedLength txt < 50)
    (hr : (apiAnalyzeResume txt f).1 = .ok result) :
    hookAnalyzeResume s txt f =
      ({ s with isAnalyzing := false, error := none, isRetryable := false,
                analysisResult := some result, lastOperation := none },
       (apiAnalyzeResume txt f).2) := by
  unfold hookAnalyzeResume
  rw [if_neg h0, if_neg h1]
  dsimp only
  rw [hr]

/-- When the guards pass and the API client fails, the hook stores the
classified message and retryability, discards the stored result and keeps
`lastOperation`. -/
theorem hookAnalyzeResume_of_error (s : AnalysisState) (txt : String)
    (f : FetchOutcome AnalysisResult) (e : ApiClientError)
    (h0 : ¬ trimmedLength txt = 0) (h1 : ¬ trimmedLength txt < 50)
    (he : (apiAnalyzeResume txt f).1 = .error e) :
    hookAnalyzeResume s txt f =
      ({ s with isAnalyzing := false, error := some e.message, isRetryable := e.isRetryable,
                analysisResult := none, lastOperation := some (.analyze txt) },
       (apiAnalyzeResume txt f).2) := by
  unfold hookAnalyzeResume
  rw [if_neg h0, if_neg h1]
  dsimp only
  rw [he]

/-- Failure branch of `generateQuestions`, analogous to the analyze one. -/
theorem hookGenerateQuestions_of_error (s : AnalysisState) (txt : String)
    (ar : AnalysisResult) (f : FetchOutcome QuestionsResult) (e : ApiClientError)
    (h0 : ¬ trimmedLength txt = 0)
    (he : (apiGenerateQuestions txt f).1 = .error e) :
    hookGenerateQuestions s txt ar f =
      ({ s with isGeneratingQuestions := false, error := some e.message,
                isRetryable := e.isRetryable, interviewQuestions := none,
                lastOperation := some (.questions txt ar) },
       (apiGenerateQuestions txt f).2) := by
  unfold hookGenerateQuestions
  rw [if_neg h0]
  dsimp only
  rw [he]

/-- A 429 response whose body parses as an envelope is always classified
as a `RateLimitError` by `handleResponse`, regardless of the envelope. -/
theorem handleResponse_status_429_rate_limited {α : Type} (r : Response α)
    (j : ApiResponse α) (hst : r.status = 429) (hj : r.json = some j) :
    handleResponse r =
      .error (.rateLimitError (getUserFriendlyMessage (j.code.getD "UNKNOWN_ERROR")
        (j.error.getD ("Request failed with status " ++ toString r.status)))) := by
  rcases r with ⟨s0, j0⟩
  simp only at hst hj
  subst hst
  subst hj
  rfl

/-! ## Claim C3 -/

/-- Claim C3, corrected by requiring the 429 body to parse as an envelope.
A parseable 429 failure makes the hook store `isRetryable = true` and keep
`lastOperation = {analyze, resumeText}`, and `retryLastOperation` then
behaves exactly as `analyzeResume` re-invoked with the original text. -/
theorem analyzeResume_429_sets_retryable_and_replays (s : AnalysisState) (txt : String)
    (r : Response AnalysisResult) (j : ApiResponse AnalysisResult)
    (hlen : 50 ≤ trimmedLength txt) (hst : r.status = 429) (hj : r.json = some j) :
    (hookAnalyzeResume s txt (.response r)).1.isRetryable = true ∧
    (hookAnalyzeResume s txt (.response r)).1.lastOperation = some (.analyze txt) ∧
    ∀ (fa : FetchOutcome AnalysisResult) (fq : FetchOutcome QuestionsResult),
      hookRetryLastOperation (hookAnalyzeResume s txt (.response r)).1 fa fq =
        hookAnalyzeResume (hookAnalyzeResume s txt (.response r)).1 txt fa := by
  have h0 : ¬ trimmedLength txt = 0 := by omega
  have h1 : ¬ trimmedLength txt < 50 := by omega
  have hhr := handleResponse_status_429_rate_limited r j hst hj
  have hres : hookAnalyzeResume s txt (.response r) =
      ({ s with isAnalyzing := false,
                error := some (getUserFriendlyMessage (j.code.getD "UNKNOWN_ERROR")
                  (j.error.getD ("Request failed with status " ++ toString r.status))),
                isRetryable := true, analysisResult := none,
                lastOperation := some (.analyze txt) }, 1) := by
    unfold hookAnalyzeResume apiAnalyzeResume fetchResult
    rw [if_neg h0, if_neg h1, if_neg h0]
    dsimp only
    rw [hhr]
    rfl
  refine ⟨by rw [hres], by rw [hres], fun fa fq => ?_⟩
  rw [hres]
  rfl

/-- Witness for `analyzeResume_429_sets_retryable_and_replays` at the
concrete throttled response and text. -/
theorem analyzeResume_429_sets_retryable_and_replays_witness :
    50 ≤ trimmedLength longResumeText ∧ rateLimitedResponse.status = 429 ∧
    rateLimitedResponse.json = some rateLimitEnvelope ∧
    ((hookAnalyzeResume initialAnalysisState longResumeText
        (.response rateLimitedResponse)).1.isRetryable = true ∧
     (hookAnalyzeResume initialAnalysisState longResumeText
        (.response rateLimitedResponse)).1.lastOperation
       = some (.analyze longResumeText) ∧
     hookRetryLastOperation (hookAnalyzeResume initialAnalysisState longResumeText
        (.response rateLimitedResponse)).1 FetchOutcome.networkFailure
        FetchOutcome.networkFailure =
       hookAnalyzeResume (hookAnalyzeResume initialAnalysisState longResumeText
        (.response rateLimitedResponse)).1 longResumeText FetchOutcome.networkFailure) := by
  obtain ⟨w1, w2, w3⟩ := analyzeResume_429_sets_retryable_and_replays initialAnalysisState
    longResumeText rateLimitedResponse rateLimitEnvelope (by decide) rfl rfl
  exact ⟨by decide, rfl, rfl, w1, w2, w3 _ _⟩

/-- Claim C3 counterexample.  A 429 response whose body fails to parse as
JSON is classified as the non-retryable `INVALID_RESPONSE` `ApiError`, so
the orchestrator stores `isRetryable = false` for this transport failure
with HTTP status 429. -/
theorem status_429_with_unparseable_body_not_retryable :
    (hookAnalyzeResume initialAnalysisState longResumeText
        (FetchOutcome.response { status := 429, json := none })).1.isRetryable = false ∧
    (hookAnalyzeResume initialAnalysisState longResumeText
        (FetchOutcome.response { status := 429, json := none })).1.error
      = some "Invalid response from server" := by
  exact ⟨by decide, by decide⟩

/-! ## Claim C4 -/

/-- Claim C4.  For a call that passes the local preconditions: a transport
success clears `lastOperation`; a transport failure keeps the record
`{analyze, resumeText}` and copies the failure's retryability flag. -/
theorem analyzeResume_lastOperation_lifecycle (s : AnalysisState) (txt : String)
    (f : FetchOutcome AnalysisResult) (hlen : 50 ≤ trimmedLength txt) :
    (∀ result, (apiAnalyzeResume txt f).1 = .ok result →
        (hookAnalyzeResume s txt f).1.lastOperation = none) ∧
    (∀ e, (apiAnalyzeResume txt f).1 = .error e →
        (hookAnalyzeResume s txt f).1.lastOperation = some (.analyze txt) ∧
        (hookAnalyzeResume s txt f).1.isRetryable = e.isRetryable) := by
  have h0 : ¬ trimmedLength txt = 0 := by omega
  have h1 : ¬ trimmedLength txt < 50 := by omega
  constructor
  · intro result hr
    rw [hookAnalyzeResume_of_ok s txt f result h0 h1 hr]
  · intro e he
    rw [hookAnalyzeResume_of_error s txt f e h0 h1 he]
    exact ⟨rfl, rfl⟩

/-- Witness for `analyzeResume_lastOperation_lifecycle`: a successful call
at a concrete 200 response clears `lastOperation`. -/
theorem analyzeResume_lastOperation_lifecycle_witness :
    50 ≤ trimmedLength longResumeText ∧
    (hookAnalyzeResume initialAnalysisState longResumeText
        (FetchOutcome.response okAnalysisResponse)).1.lastOperation = none :=
  ⟨by decide,
   (analyzeResume_lastOperation_lifecycle initialAnalysisState longResumeText
       (FetchOutcome.response okAnalysisResponse) (by decide)).1 sampleAnalysis rfl⟩

/-! ## Claim C10 -/

/-- Claim C10.  A failed `analyzeResume` sets the stored `analysisResult`
to absent, and a failed `generateQuestions` sets the stored
`interviewQuestions` to absent, discarding any previously stored value. -/
theorem failed_operation_discards_stored_results (s : AnalysisState) (txt : String)
    (fa : FetchOutcome AnalysisResult) (ar : AnalysisResult)
    (fq : FetchOutcome QuestionsResult) (ea eb : ApiClientError)
    (hlen : 50 ≤ trimmedLength txt)
    (ha : (apiAnalyzeResume txt fa).1 = .error ea)
    (hb : (apiGenerateQuestions txt fq).1 = .error eb) :
    (hookAnalyzeResume s txt fa).1.analysisResult = none ∧
    (hookGenerateQuestions s txt ar fq).1.interviewQuestions = none := by
  have h0 : ¬ trimmedLength txt = 0 := by omega
  have h1 : ¬ trimmedLength txt < 50 := by omega
  constructor
  · rw [hookAnalyzeResume_of_error s txt fa ea h0 h1 ha]
  · rw [hookGenerateQuestions_of_error s txt ar fq eb h0 hb]

/-- Witness for `failed_operation_discards_stored_results`: starting from
a state with stored results, network failures discard both. -/
theorem failed_operation_discards_stored_results_witness :
    50 ≤ trimmedLength longResumeText ∧
    ((hookAnalyzeResume stateWithResults longResumeText
        FetchOutcome.networkFailure).1.analysisResult = none ∧
     (hookGenerateQuestions stateWithResults longResumeText sampleAnalysis
        FetchOutcome.networkFailure).1.interviewQuestions = none) :=
  ⟨by decide,
   failed_operation_discards_stored_results stateWithResults longResumeText
     FetchOutcome.networkFailure sampleAnalysis FetchOutcome.networkFailure
     (.networkError networkErrorMessage) (.networkError networkErrorMessage)
     (by decide) rfl rfl⟩

/-! ## Claim C5 -/

/-- On a 2xx status the fixed table yields `false` for the `NO_DATA` code. -/
theorem isRetryableError_2xx_NO_DATA (status : Nat) (h2 : 200 ≤ status) (h3 : status < 300) :
    isRetryableError status (some "NO_DATA") = false := by
  unfold isRetryableError
  have hc : (([408, 429, 500, 502, 503, 504] : List Nat).contains status) = false := by
    simp only [List.elem_eq_mem, decide_eq_false_iff_not]
    intro hmem
    fin_cases hmem <;> omega
  simp [hc]
  omega

/-- Claim C5, corrected to the responses that go through `handleResponse`
with a parseable body: every `ApiError` it produces carries exactly the
retryability given by the fixed table for its status and code, and records
the response's status.  (`checkHealth` does not go through this path and
deviates, see the counterexample.) -/
theorem handleResponse_apiError_matches_table {α : Type} (r : Response α)
    (j : ApiResponse α) (hj : r.json = some j) (m c : String) (st : Option Nat) (b : Bool)
    (he : handleResponse r = .error (.apiError m c st b)) :
    b = isRetryableError r.status (some c) ∧ st = some r.status := by
  unfold handleResponse at he
  split at he
  · next heq =>
      rw [hj] at heq
      exact Option.noConfusion heq
  · next d heq =>
      rw [hj] at heq
      injection heq with hd
      subst hd
      split at he <;> try dsimp only at he
      · split at he
        · exact absurd he (by simp)
        · injection he with he'
          injection he' with hm hc hst hb
          subst hc hst hb
          exact ⟨rfl, rfl⟩
      · next hcond =>
          have hok : 200 ≤ r.status ∧ r.status < 300 := by
            simp only [Bool.or_eq_true, Bool.not_eq_true', not_or] at hcond
            have := hcond.1
            unfold Response.isOk at this
            simpa using this
          split at he
          · injection he with he'
            injection he' with hm hc hst hb
            subst hc hst hb
            exact ⟨(isRetryableError_2xx_NO_DATA r.status hok.1 hok.2).symm, rfl⟩
          · exact absurd he (by simp)

/-- Witness for `handleResponse_apiError_matches_table` at a concrete 500
response with code `ANALYSIS_FAILED` (retryable per the table). -/
theorem handleResponse_apiError_matches_table_witness :
    failedAnalysisResponse.json = some failedAnalysisEnvelope ∧
    (true = isRetryableError failedAnalysisResponse.status (some "ANALYSIS_FAILED") ∧
     (some 500 : Option Nat) = some failedAnalysisResponse.status) :=
  ⟨rfl,
   handleResponse_apiError_matches_table failedAnalysisResponse failedAnalysisEnvelope rfl
     "Analysis failed. Please try again." "ANALYSIS_FAILED" (some 500) true rfl⟩

/-- Claim C5 counterexample.  `checkHealth` on a non-ok 503 response
produces an `ApiError` whose `isRetryable` is `false`, although the fixed
table classifies status 503 (with this code) as retryable. -/
theorem checkHealth_503_apiError_not_retryable :
    checkHealth (HealthFetchOutcome.response 503 none)
      = .error (.apiError "Health check failed" "HEALTH_CHECK_FAILED" (some 503) false) ∧
    isRetryableError 503 (some "HEALTH_CHECK_FAILED") = true :=
  ⟨rfl, by decide⟩

/-! ## Claim C6 -/

/-- Claim C6.  An ok response whose envelope reports success but omits the
data payload makes `handleResponse` raise the non-retryable `NO_DATA`
`ApiError`; its message is the spec's "no data in response" up to the
capitalization of the first letter. -/
theorem handleResponse_success_without_data {α : Type} (r : Response α) (j : ApiResponse α)
    (hj : r.json = some j) (hok : r.isOk = true) (hs : j.success = true) (hd : j.data = none) :
    handleResponse r = .error (.apiError "No data in response" "NO_DATA" (some r.status) false) ∧
    jsToLower "No data in response" = "no data in response" := by
  refine ⟨?_, by decide⟩
  obtain ⟨s0, j0⟩ := r
  simp only at hj
  subst hj
  unfold handleResponse
  simp only [Response.isOk] at hok ⊢
  simp [hok, hs, hd, Response.isOk]

/-- Witness for `handleResponse_success_without_data` at the concrete 200
response with a success envelope and no data. -/
theorem handleResponse_success_without_data_witness :
    noDataResponse.json = some noDataEnvelope ∧
    (handleResponse noDataResponse
       = .error (.apiError "No data in response" "NO_DATA" (some noDataResponse.status) false) ∧
     jsToLower "No data in response" = "no data in response") :=
  ⟨rfl, handleResponse_success_without_data noDataResponse noDataEnvelope rfl rfl rfl rfl⟩

/-! ## Claim C7 -/

/-- The clamp pattern keeps any requested value inside `[0.5, 3.0]`. -/
theorem clamp_bounds (x : ℚ) : 1/2 ≤ min 3 (max (1/2) x) ∧ min 3 (max (1/2) x) ≤ 3 :=
  ⟨le_min (by norm_num) (le_max_left _ _), min_le_left _ _⟩

/-- Claim C7.  Starting from any scale in `[0.5, 3.0]`, every scale-change
operation of the viewer (zoom in/out, reset, the clamped `setScale`
pattern, fit-to-width, pinch move) produces a scale in `[0.5, 3.0]`. -/
theorem viewer_scale_operations_stay_clamped (s x cw pw d : ℚ) (ts : TouchRef)
    (h1 : 1/2 ≤ s) (h2 : s ≤ 3) :
    (1/2 ≤ handleZoomIn s ∧ handleZoomIn s ≤ 3) ∧
    (1/2 ≤ handleZoomOut s ∧ handleZoomOut s ≤ 3) ∧
    (1/2 ≤ handleResetZoom ∧ handleResetZoom ≤ 3) ∧
    (1/2 ≤ clampScale x ∧ clampScale x ≤ 3) ∧
    (1/2 ≤ handleFitToWidth s cw pw ∧ handleFitToWidth s cw pw ≤ 3) ∧
    (1/2 ≤ (handleTouchMove s ts d).1 ∧ (handleTouchMove s ts d).1 ≤ 3) := by
  refine ⟨⟨le_min (by norm_num) (by linarith), min_le_left _ _⟩,
          ⟨le_max_left _ _, max_le (by norm_num) (by linarith)⟩,
          ⟨by norm_num [handleResetZoom], by norm_num [handleResetZoom]⟩,
          clamp_bounds x,
          clamp_bounds ((cw - 32) / (pw / s)),
          clamp_bounds (s * (d / ts.distance))⟩

/-- Witness for `viewer_scale_operations_stay_clamped` at scale 1 and
concrete geometry. -/
theorem viewer_scale_operations_stay_clamped_witness :
    (1/2 : ℚ) ≤ 1 ∧ (1 : ℚ) ≤ 3 ∧
    ((1/2 ≤ handleZoomIn 1 ∧ handleZoomIn 1 ≤ 3) ∧
     (1/2 ≤ handleZoomOut 1 ∧ handleZoomOut 1 ≤ 3) ∧
     (1/2 ≤ handleResetZoom ∧ handleResetZoom ≤ 3) ∧
     (1/2 ≤ clampScale 10 ∧ clampScale 10 ≤ 3) ∧
     (1/2 ≤ handleFitToWidth 1 800 600 ∧ handleFitToWidth 1 800 600 ≤ 3) ∧
     (1/2 ≤ (handleTouchMove 1 sampleTouchRef 5).1 ∧ (handleTouchMove 1 sampleTouchRef 5).1 ≤ 3)) :=
  ⟨by norm_num, by norm_num,
   viewer_scale_operations_stay_clamped 1 10 800 600 5 sampleTouchRef
     (by norm_num) (by norm_num)⟩

/-! ## Claim C8 -/

/-- Claim C8.  A two-finger move multiplies the scale by
`currentDistance / referenceDistance` with clamping to `[0.5, 3.0]` and
rebases the reference distance; doubling the distance at scale 1 gives
scale 2, and any product beyond 3 is clamped to 3. -/
theorem pinch_move_formula (s d : ℚ) (ts : TouchRef) (hpos : 0 < ts.distance) :
    (handleTouchMove s ts d).1 = min 3 (max (1/2) (s * (d / ts.distance))) ∧
    (handleTouchMove s ts d).2.distance = d ∧
    (handleTouchMove 1 ts (2 * ts.distance)).1 = 2 ∧
    (3 < s * (d / ts.distance) → (handleTouchMove s ts d).1 = 3) := by
  have hne : ts.distance ≠ 0 := ne_of_gt hpos
  refine ⟨rfl, rfl, ?_, ?_⟩
  · show min 3 (max (1/2) (1 * (2 * ts.distance / ts.distance))) = 2
    rw [one_mul, mul_div_assoc, div_self hne, mul_one]
    rw [max_eq_right (by norm_num : (1/2 : ℚ) ≤ 2), min_eq_right (by norm_num : (2 : ℚ) ≤ 3)]
  · intro hgt
    show min 3 (max (1/2) (s * (d / ts.distance))) = 3
    rw [max_eq_right (by linarith), min_eq_left (le_of_lt hgt)]

/-- Witness for `pinch_move_formula` at reference distance 4, scale 1 and
current distance 8. -/
theorem pinch_move_formula_witness :
    0 < sampleTouchRef.distance ∧
    ((handleTouchMove 1 sampleTouchRef 8).1
       = min 3 (max (1/2) (1 * (8 / sampleTouchRef.distance))) ∧
     (handleTouchMove 1 sampleTouchRef 8).2.distance = 8 ∧
     (handleTouchMove 1 sampleTouchRef (2 * sampleTouchRef.distance)).1 = 2 ∧
     (3 < 1 * (8 / sampleTouchRef.distance) → (handleTouchMove 1 sampleTouchRef 8).1 = 3)) :=
  ⟨by norm_num [sampleTouchRef], pinch_move_formula 1 8 sampleTouchRef (by norm_num [sampleTouchRef])⟩

/-! ## Claim C9 -/

/-- Claim C9.  From a current page inside `[1, pageCount]`, submitting a
parsed value `n` jumps to `n` when `1 ≤ n ≤ pageCount` and otherwise keeps
the page and surfaces the validation message; either way the resulting
current page stays inside `[1, pageCount]`. -/
theorem goToPage_validates_and_stays_in_range (n currentPage numPages : Int)
    (hcur1 : 1 ≤ currentPage) (hcur2 : currentPage ≤ numPages) :
    ((1 ≤ n ∧ n ≤ numPages) →
        handlePageInputSubmit (some n) currentPage numPages = (n, none)) ∧
    ((n < 1 ∨ numPages < n) →
        (handlePageInputSubmit (some n) currentPage numPages).1 = currentPage ∧
        (handlePageInputSubmit (some n) currentPage numPages).2.isSome = true) ∧
    1 ≤ (handlePageInputSubmit (some n) currentPage numPages).1 ∧
    (handlePageInputSubmit (some n) currentPage numPages).1 ≤ numPages := by
  unfold handlePageInputSubmit
  dsimp only
  by_cases h : 1 ≤ n ∧ n ≤ numPages
  · rw [if_pos h]
    refine ⟨fun _ => rfl, fun hc => absurd hc (by omega), h.1, h.2⟩
  · rw [if_neg h]
    exact ⟨fun hc => absurd hc h, fun _ => ⟨rfl, rfl⟩, hcur1, hcur2⟩

/-- Witness for `goToPage_validates_and_stays_in_range` on a 5-page
document at page 2 with the out-of-range request 7. -/
theorem goToPage_validates_and_stays_in_range_witness :
    (1 : Int) ≤ 2 ∧ (2 : Int) ≤ 5 ∧
    (((1 : Int) ≤ 7 ∧ (7 : Int) ≤ 5) → handlePageInputSubmit (some 7) 2 5 = (7, none)) ∧
    (((7 : Int) < 1 ∨ (5 : Int) < 7) →
        (handlePageInputSubmit (some 7) 2 5).1 = 2 ∧
        (handlePageInputSubmit (some 7) 2 5).2.isSome = true) ∧
    1 ≤ (handlePageInputSubmit (some 7) 2 5).1 ∧
    (handlePageInputSubmit (some 7) 2 5).1 ≤ 5 := by
  obtain ⟨w1, w2, w3, w4⟩ :=
    goToPage_validates_and_stays_in_range 7 2 5 (by decide) (by decide)
  exact ⟨by decide, by decide, w1, w2, w3, w4⟩

end ResumeAnalyzer
